import Mathlib

/-!
Verification of the main-window controller of the Cartridges game-library
manager (src/window.py). Strings are modelled as Python strings: lists of
code points compared lexicographically; timestamps as naturals rendered in
decimal by Python str.
-/

namespace Cartridges

/-- Python str.lower, applied pointwise to the code points. -/
def lower (s : List Char) : List Char := s.map Char.toLower

/-- Python strict less-than on strings: lexicographic by code point, a proper
prefix is smaller. -/
def strLt : List Char → List Char → Bool
  | [], [] => false
  | [], _ :: _ => true
  | _ :: _, [] => false
  | a :: as, b :: bs => if a < b then true else if b < a then false else strLt as bs

/-- Python strict greater-than on strings. -/
def strGt (a b : List Char) : Bool := strLt b a

/-- Python str of a natural number (decimal digits). -/
def natStr (n : Nat) : List Char := Nat.toDigits 10 n

/-- Modelled from the spec: the external Game record's `last_played` is an
optional timestamp; Python str renders an absent value as the text None. -/
def timeStr : Option Nat → List Char
  | none => "None".data
  | some n => natStr n

/-- The fields of the external Game record that window.py reads or writes
(spec section 3); `filtered` is the transient search-exclusion flag. -/
structure Game where
  name : List Char
  developer : Option (List Char)
  added : Nat
  last_played : Option Nat
  hidden : Bool
  removed : Bool
  blacklisted : Bool
  filtered : Bool
  deriving DecidableEq, Repr

/-- The three pages of the window's view stack. -/
inductive Page
  | libraryView
  | hiddenLibraryView
  | detailsView
  deriving DecidableEq, Repr

/-- The state filter_func reads: the visible page and the two search entries'
texts. -/
structure SearchState where
  visiblePage : Page
  searchText : List Char
  hiddenSearchText : List Char
  deriving DecidableEq, Repr

/-- The entry text filter_func selects: the hidden entry's text when the
hidden library view is the visible child of the stack, the library entry's
text otherwise. -/
def active_search_text (s : SearchState) : List Char :=
  if s.visiblePage = Page.hiddenLibraryView then s.hiddenSearchText else s.searchText

/-- The exclusion flag computed by filter_func for lowered text:
filtered means the text is non-empty and occurs neither in the lowered name
nor in the lowered developer (a missing or empty developer is falsy). -/
def match_filtered (text : List Char) (g : Game) : Bool :=
  !(text == []) &&
    !(decide (List.IsInfix text (lower g.name)) ||
      (match g.developer with
       | some d => if d == [] then false else decide (List.IsInfix text (lower d))
       | none => false))

/-- Filtering a game against a given raw entry text (already lowered by the
caller): returns the visibility result and the game with its `filtered` flag
updated. -/
def filter_with_text (text : List Char) (g : Game) : Bool × Game :=
  (!(match_filtered text g), { g with filtered := match_filtered text g })

/-- CartridgesWindow.filter_func: picks the search entry by the visible page,
lowers its text, stores the exclusion flag on the game and returns whether
the child stays visible. -/
def filter_func (s : SearchState) (g : Game) : Bool × Game :=
  filter_with_text (lower (active_search_text s)) g

/-- The three children a library bin can show. -/
inductive LibChild
  | noticeEmpty
  | noticeNoResults
  | scrolledwindow
  deriving DecidableEq, Repr

/-- One loop iteration of set_library_child for the group the game belongs
to: a filtered game demotes the choice to the no-results notice unless the
scroll container was already chosen; an unfiltered game selects the scroll
container. -/
def child_update (cur : LibChild) (g : Game) : LibChild :=
  if g.filtered && !(cur == LibChild.scrolledwindow) then LibChild.noticeNoResults
  else LibChild.scrolledwindow

/-- One loop iteration of set_library_child: removed or blacklisted games are
skipped, otherwise the hidden flag routes the game to its group's choice. -/
def set_library_child_step (acc : LibChild × LibChild) (g : Game) : LibChild × LibChild :=
  if g.removed || g.blacklisted then acc
  else if g.hidden then (acc.1, child_update acc.2 g)
  else (child_update acc.1 g, acc.2)

/-- CartridgesWindow.set_library_child: one pass over the store deciding, for
the library and the hidden library, which child each bin shows, starting
from the empty notices. -/
def set_library_child (games : List Game) : LibChild × LibChild :=
  games.foldl set_library_child_step (LibChild.noticeEmpty, LibChild.noticeEmpty)

/-- A game belonging to the visible-library group: not removed, not
blacklisted, not hidden. -/
def eligible_visible (g : Game) : Bool := !g.removed && !g.blacklisted && !g.hidden

/-- A game belonging to the hidden-library group: not removed, not
blacklisted, hidden. -/
def eligible_hidden (g : Game) : Bool := !g.removed && !g.blacklisted && g.hidden

/-- The spec's description of placeholder selection for one group: the scroll
container if some group member is unfiltered, else the no-results notice if
the group is non-empty, else the empty notice. -/
def select_child (elig : Game → Bool) (games : List Game) : LibChild :=
  if games.any (fun g => elig g && !g.filtered) then LibChild.scrolledwindow
  else if games.any elig then LibChild.noticeNoResults
  else LibChild.noticeEmpty

/-- The (hidden, removed, blacklisted, filtered) tuple of a game. -/
def game_flags (g : Game) : Bool × Bool × Bool × Bool :=
  (g.hidden, g.removed, g.blacklisted, g.filtered)

/-- The key field and direction flag sort_func derives from sort_state; the
flag is the Python `order` boolean (False means ascending display order,
True descending). Any unknown state falls through to name with order True,
which is the z-a behaviour. -/
def sort_var_order (sort_state : String) : String × Bool :=
  if sort_state = "newest" ∨ sort_state = "oldest" then ("added", sort_state == "newest")
  else if sort_state = "last_played" then ("last_played", true)
  else if sort_state = "a-z" then ("name", false)
  else ("name", true)

/-- sort_func's get_value: Python str of the selected attribute, lowered. -/
def get_value (var : String) (g : Game) : List Char :=
  lower (if var = "added" then natStr g.added
         else if var = "last_played" then timeStr g.last_played
         else g.name)

/-- The body of sort_func after var and order are fixed: when comparing by a
non-name key and the two values are equal, var and order are rebound to name
and True; the result is ((value1 greater than value2) xor order) doubled and
decremented, so only 1 and -1 are ever returned. -/
def cmp_core (var : String) (order : Bool) (g1 g2 : Game) : Int :=
  if var ≠ "name" ∧ get_value var g1 = get_value var g2 then
    (if Bool.xor (strGt (get_value "name" g1) (get_value "name" g2)) true then 1 else -1)
  else
    (if Bool.xor (strGt (get_value var g1) (get_value var g2)) order then 1 else -1)

/-- CartridgesWindow.sort_func: the flow-box comparator, negative when the
first child sorts before the second. -/
def sort_func (sort_state : String) (g1 g2 : Game) : Int :=
  cmp_core (sort_var_order sort_state).1 (sort_var_order sort_state).2 g1 g2

/-- The effective comparison keys of a game under a sort mode: the mode's key
value together with the name value used for the tie fallback. -/
def sort_keys (sort_state : String) (g : Game) : List Char × List Char :=
  (get_value (sort_var_order sort_state).1 g, get_value "name" g)

/-- The two stack transition animations navigate selects between. -/
inductive Transition
  | underRight
  | overLeft
  deriving DecidableEq, Repr

/-- The window's navigation state: visible stack child, previous_page, the
show_hidden action's enabled flag and the last transition type set. -/
structure NavState where
  visible : Page
  previous : Page
  showHiddenEnabled : Bool
  transition : Transition
  deriving DecidableEq, Repr

/-- Position of a page in the `levels` tuple of navigate. -/
def pageIndex : Page → Nat
  | Page.libraryView => 0
  | Page.hiddenLibraryView => 1
  | Page.detailsView => 2

/-- CartridgesWindow.navigate: sets the transition by the sign of the level
difference, records previous_page and re-enables show_hidden when the target
is a library page, and makes the target visible. -/
def navigate (s : NavState) (next : Page) : NavState :=
  if next = Page.libraryView ∨ next = Page.hiddenLibraryView then
    { visible := next, previous := next,
      showHiddenEnabled := next == Page.libraryView,
      transition := if pageIndex s.visible > pageIndex next then Transition.underRight
                    else Transition.overLeft }
  else
    { s with visible := next,
             transition := if pageIndex s.visible > pageIndex next then Transition.underRight
                           else Transition.overLeft }

/-- The navigation state after CartridgesWindow.__init__: the library view is
visible and previous_page is the library view. -/
def initialNavState : NavState :=
  { visible := Page.libraryView, previous := Page.libraryView,
    showHiddenEnabled := true, transition := Transition.overLeft }

/-- CartridgesWindow.on_go_to_parent_action: from the details view, navigate
to previous_page's library page. -/
def on_go_to_parent_action (s : NavState) : NavState :=
  if s.visible = Page.detailsView then
    navigate s (if s.previous = Page.hiddenLibraryView then Page.hiddenLibraryView
                else Page.libraryView)
  else s

/-- CartridgesWindow.on_go_back_action: from the hidden library go to the
library, from the details view defer to on_go_to_parent_action. -/
def on_go_back_action (s : NavState) : NavState :=
  if s.visible = Page.hiddenLibraryView then navigate s Page.libraryView
  else if s.visible = Page.detailsView then on_go_to_parent_action s
  else s

/-- CartridgesWindow.on_go_home_action. -/
def on_go_home_action (s : NavState) : NavState := navigate s Page.libraryView

/-- CartridgesWindow.on_show_hidden_action. -/
def on_show_hidden_action (s : NavState) : NavState := navigate s Page.hiddenLibraryView

/-- The navigation effect of CartridgesWindow.show_details_view: navigate to
the details view if it is not already visible. -/
def show_details_view_nav (s : NavState) : NavState :=
  if s.visible ≠ Page.detailsView then navigate s Page.detailsView else s

/-- The user-reachable operations that touch the navigation state. -/
inductive NavOp
  | goBack
  | goToParent
  | goHome
  | showHidden
  | showDetails
  deriving DecidableEq, Repr

/-- Apply one navigation operation. -/
def nav_apply (op : NavOp) (s : NavState) : NavState :=
  match op with
  | NavOp.goBack => on_go_back_action s
  | NavOp.goToParent => on_go_to_parent_action s
  | NavOp.goHome => on_go_home_action s
  | NavOp.showHidden => on_show_hidden_action s
  | NavOp.showDetails => show_details_view_nav s

/-- Navigation states reachable from the freshly constructed window. -/
inductive Reachable : NavState → Prop
  | base : Reachable initialNavState
  | step (s : NavState) (op : NavOp) : Reachable s → Reachable (nav_apply op s)

/-- previous_page is one of the two library pages. -/
def prev_is_library (s : NavState) : Prop :=
  s.previous = Page.libraryView ∨ s.previous = Page.hiddenLibraryView

/-- The state after showing the hidden library and then opening a game's
details from it. -/
def details_from_hidden : NavState :=
  nav_apply NavOp.showDetails (nav_apply NavOp.showHidden initialNavState)

/-- Which widget holds the window's input focus, as far as on_escape_action
can distinguish: the text child of the library search entry, the text child
of the hidden search entry, or some other widget. -/
inductive FocusW
  | searchText
  | hiddenSearchText
  | elsewhere
  deriving DecidableEq, Repr

/-- Gtk get_focus_child of the library search entry: its text child when the
focus lies inside it, otherwise null. -/
def search_entry_focus_child (f : Option FocusW) : Option FocusW :=
  if f = some FocusW.searchText then some FocusW.searchText else none

/-- Gtk get_focus_child of the hidden search entry. -/
def hidden_search_entry_focus_child (f : Option FocusW) : Option FocusW :=
  if f = some FocusW.hiddenSearchText then some FocusW.hiddenSearchText else none

/-- The two things Escape can do. -/
inductive EscapeRoute
  | toggleSearch
  | goBackNav
  deriving DecidableEq, Repr

/-- CartridgesWindow.on_escape_action. The Python condition is
get_focus() == search_entry.get_focus_child() or
hidden_search_entry.get_focus_child(): the second disjunct is a bare
truthiness test, and the first compares possibly-null values. -/
def on_escape_action (f : Option FocusW) : EscapeRoute :=
  if f = search_entry_focus_child f ∨ (hidden_search_entry_focus_child f).isSome = true
  then EscapeRoute.toggleSearch
  else EscapeRoute.goBackNav

/-- The claim's condition: one of the two search entries holds input focus. -/
def a_search_entry_holds_focus (f : Option FocusW) : Bool :=
  f == some FocusW.searchText || f == some FocusW.hiddenSearchText

/-- The slice of the external Game record on_undo_action mutates. -/
structure UndoGame where
  gid : Nat
  hidden : Bool
  removed : Bool
  deriving DecidableEq, Repr

/-- The state on_undo_action reads and writes: whether the importer reports a
pending batch, a flag recording that undo_import ran, the toast registry keys
in insertion order (last is most recent) and the game store. -/
structure UndoState where
  importerPending : Bool
  importerUndone : Bool
  toasts : List (Nat × String)
  games : List UndoGame
  deriving DecidableEq, Repr

/-- The outcome of one undo invocation: normal return, or a KeyError escaping
from the toast-registry lookup, each carrying the state left behind. -/
inductive UndoOutcome
  | ok (s : UndoState)
  | keyError (s : UndoState)
  deriving DecidableEq, Repr

/-- Modelled from the spec: Game.toggle_hidden as called by undo, which
"toggles hidden back to false" for the given game. -/
def toggle_hidden_false (games : List UndoGame) (gid : Nat) : List UndoGame :=
  games.map fun g => if g.gid = gid then { g with hidden := false } else g

/-- The remove-undo branch: game.removed = False, then save and update
(persistence is outside this model). -/
def clear_removed (games : List UndoGame) (gid : Nat) : List UndoGame :=
  games.map fun g => if g.gid = gid then { g with removed := false } else g

/-- The game-store mutation performed by the body of on_undo_action before
the toast lookup. -/
def undo_games_update (s : UndoState) (gid : Nat) (undo : Option String) : List UndoGame :=
  if undo = some "hide" then toggle_hidden_false s.games gid
  else if undo = some "remove" then clear_removed s.games gid
  else s.games

/-- The `if game:` body of on_undo_action: apply the reversal, then index the
toast registry with the (game, undo) key - a missing key raises KeyError
after the mutation already happened - and pop it. -/
def undo_apply (s : UndoState) (gid : Nat) (undo : Option String) : UndoOutcome :=
  match undo with
  | some u =>
    if (gid, u) ∈ s.toasts then
      UndoOutcome.ok { s with games := undo_games_update s gid undo,
                              toasts := s.toasts.erase (gid, u) }
    else UndoOutcome.keyError { s with games := undo_games_update s gid undo }
  | none => UndoOutcome.keyError { s with games := undo_games_update s gid undo }

/-- CartridgesWindow.on_undo_action: with no game argument, a pending
importer batch wins; otherwise the most recent registry key is taken, and an
empty registry returns silently (the IndexError is caught). -/
def on_undo_action (s : UndoState) (gameArg : Option Nat) (undoArg : Option String) :
    UndoOutcome :=
  match gameArg with
  | none =>
    if s.importerPending then UndoOutcome.ok { s with importerUndone := true }
    else
      match s.toasts.getLast? with
      | none => UndoOutcome.ok s
      | some k => undo_apply s k.1 (some k.2)
  | some gid => undo_apply s gid undoArg

/-- The state on_sort_action touches: the sort action's state, the shared
sort_state both comparators read, the displayed order of the two flow boxes
and the persisted sort mode in the settings schema. -/
structure SortWindowState where
  actionState : String
  sort_state : String
  libraryChildren : List Game
  hiddenChildren : List Game
  schemaSortMode : String
  deriving DecidableEq, Repr

/-- Insert a child into an already sorted run, by the comparator. -/
def insert_sorted (mode : String) (g : Game) : List Game → List Game
  | [] => [g]
  | h :: t => if sort_func mode g h ≤ 0 then g :: h :: t else h :: insert_sorted mode g t

/-- Models GtkFlowBox.invalidate_sort: re-sort the children with the flow
box's sort function (an insertion sort here; no claim depends on which sort
the toolkit uses). -/
def invalidate_sort (mode : String) : List Game → List Game
  | [] => []
  | g :: gs => insert_sorted mode g (invalidate_sort mode gs)

/-- CartridgesWindow.on_sort_action: store the new state on the action and in
sort_state, re-sort only the visible library flow box, and persist the mode
to the settings schema. The hidden flow box is not invalidated. -/
def on_sort_action (s : SortWindowState) (stateArg : String) : SortWindowState :=
  { s with actionState := stateArg,
           sort_state := stateArg,
           libraryChildren := invalidate_sort stateArg s.libraryChildren,
           schemaSortMode := stateArg }

/-- A game last played at time 1, named a. -/
def gLp1 : Game :=
  { name := "a".data, developer := none, added := 0, last_played := some 1,
    hidden := false, removed := false, blacklisted := false, filtered := false }

/-- A game last played at time 2, named b. -/
def gLp2 : Game :=
  { name := "b".data, developer := none, added := 0, last_played := some 2,
    hidden := false, removed := false, blacklisted := false, filtered := false }

/-- A game last played at time 5, named a. -/
def gLp3 : Game :=
  { name := "a".data, developer := none, added := 0, last_played := some 5,
    hidden := false, removed := false, blacklisted := false, filtered := false }

/-- A game last played at time 5, named b. -/
def gLp4 : Game :=
  { name := "b".data, developer := none, added := 0, last_played := some 5,
    hidden := false, removed := false, blacklisted := false, filtered := false }

/-- A game named a, for the comparator claims. -/
def gNameA : Game :=
  { name := "a".data, developer := none, added := 3, last_played := none,
    hidden := false, removed := false, blacklisted := false, filtered := false }

/-- A game named b, for the comparator claims. -/
def gNameB : Game :=
  { name := "b".data, developer := none, added := 4, last_played := none,
    hidden := false, removed := false, blacklisted := false, filtered := false }

/-- A hidden, filtered game named alpha. -/
def gW4a : Game :=
  { name := "alpha".data, developer := none, added := 0, last_played := none,
    hidden := true, removed := false, blacklisted := false, filtered := true }

/-- A hidden, filtered game named beta: same flags as gW4a, different name. -/
def gW4b : Game :=
  { name := "beta".data, developer := some ("dev".data), added := 9, last_played := some 9,
    hidden := true, removed := false, blacklisted := false, filtered := true }

/-- A search state showing the hidden library view, with different texts in
the two entries. -/
def sHidden : SearchState :=
  { visiblePage := Page.hiddenLibraryView, searchText := "mario".data,
    hiddenSearchText := "zelda".data }

/-- A game for the filter claims, named Zelda. -/
def gW9 : Game :=
  { name := "Zelda".data, developer := some ("Zelda Co".data), added := 0,
    last_played := none, hidden := false, removed := false, blacklisted := false,
    filtered := false }

/-- An undo state with an empty toast registry, no pending importer batch and
one game. -/
def undoNoEntryState : UndoState :=
  { importerPending := false, importerUndone := false, toasts := [],
    games := [{ gid := 1, hidden := false, removed := false }] }

/-- An undo state whose registry holds one key, for the missing-key claim. -/
def undoWitnessState : UndoState :=
  { importerPending := false, importerUndone := false, toasts := [(1, "hide")],
    games := [{ gid := 1, hidden := true, removed := false }] }

/-! Order theory of the Python string comparison. -/

theorem strLt_irrefl (a : List Char) : strLt a a = false := by
  induction a with
  | nil => rfl
  | cons c cs ih => simp [strLt, ih]

theorem strLt_asymm : ∀ a b : List Char, strLt a b = true → strLt b a = false
  | [], [], h => by simp [strLt] at h
  | [], _ :: _, _ => rfl
  | _ :: _, [], h => by simp [strLt] at h
  | a :: as, b :: bs, h => by
    simp only [strLt] at h ⊢
    rcases lt_trichotomy a b with hab | rfl | hab
    · simp [hab, lt_asymm hab]
    · simp only [lt_self_iff_false, if_false] at h ⊢
      exact strLt_asymm as bs h
    · simp [hab, lt_asymm hab] at h

theorem strLt_conn : ∀ a b : List Char, strLt a b = false → strLt b a = false → a = b
  | [], [], _, _ => rfl
  | [], _ :: _, h1, _ => by simp [strLt] at h1
  | _ :: _, [], _, h2 => by simp [strLt] at h2
  | a :: as, b :: bs, h1, h2 => by
    simp only [strLt] at h1 h2
    rcases lt_trichotomy a b with hab | rfl | hab
    · simp [hab] at h1
    · simp only [lt_self_iff_false, if_false] at h1 h2
      rw [strLt_conn as bs h1 h2]
    · simp [hab] at h2

theorem strLt_trans : ∀ a b c : List Char,
    strLt a b = true → strLt b c = true → strLt a c = true
  | [], [], _, h1, _ => by simp [strLt] at h1
  | [], _ :: _, [], _, h2 => by simp [strLt] at h2
  | [], _ :: _, _ :: _, _, _ => rfl
  | _ :: _, [], _, h1, _ => by simp [strLt] at h1
  | _ :: _, _ :: _, [], _, h2 => by simp [strLt] at h2
  | a :: as, b :: bs, c :: cs, h1, h2 => by
    simp only [strLt] at h1 h2 ⊢
    rcases lt_trichotomy a b with hab | rfl | hab
    · rcases lt_trichotomy b c with hbc | rfl | hbc
      · simp [lt_trans hab hbc]
      · simp [hab]
      · simp [lt_asymm hbc, hbc] at h2
    · simp only [lt_self_iff_false, if_false] at h1
      by_cases hac : a < c
      · simp [hac]
      · by_cases hca : c < a
        · simp [hac, hca] at h2
        · simp only [hac, hca, if_false] at h2 ⊢
          exact strLt_trans as bs cs h1 h2
    · simp [lt_asymm hab, hab] at h1

theorem strLt_flip (a b : List Char) (h : a ≠ b) : strLt b a = !strLt a b := by
  cases hab : strLt a b
  · cases hba : strLt b a
    · exact absurd (strLt_conn a b hab hba) h
    · rfl
  · simp [strLt_asymm a b hab]

theorem strLt_neg_trans (a b c : List Char) (h1 : strLt a b = false)
    (h2 : strLt b c = false) : strLt a c = false := by
  cases hac : strLt a c
  · rfl
  · exfalso
    rcases eq_or_ne a b with rfl | hab
    · rw [hac] at h2
      exact Bool.noConfusion h2
    · have hba : strLt b a = true := by rw [strLt_flip a b hab, h1]; rfl
      rcases eq_or_ne b c with rfl | hbc
      · rw [h1] at hac
        exact Bool.noConfusion hac
      · have hcb : strLt c b = true := by rw [strLt_flip b c hbc, h2]; rfl
        have hca : strLt c a = true := strLt_trans c b a hcb hba
        rw [strLt_asymm a c hac] at hca
        exact Bool.noConfusion hca

/-! Properties of the sort comparator. -/

theorem cmp_core_vals (var : String) (order : Bool) (g1 g2 : Game) :
    cmp_core var order g1 g2 = 1 ∨ cmp_core var order g1 g2 = -1 := by
  unfold cmp_core
  split
  · split
    · exact Or.inl rfl
    · exact Or.inr rfl
  · split
    · exact Or.inl rfl
    · exact Or.inr rfl

theorem cmp_core_eq_neg_one (var : String) (order : Bool) (g1 g2 : Game) :
    (cmp_core var order g1 g2 = -1) ↔
      (if var ≠ "name" ∧ get_value var g1 = get_value var g2
       then strGt (get_value "name" g1) (get_value "name" g2) = true
       else strGt (get_value var g1) (get_value var g2) = order) := by
  unfold cmp_core
  by_cases hfb : var ≠ "name" ∧ get_value var g1 = get_value var g2
  · rw [if_pos hfb, if_pos hfb]
    cases hn : strGt (get_value "name" g1) (get_value "name" g2) <;> decide
  · rw [if_neg hfb, if_neg hfb]
    cases hv : strGt (get_value var g1) (get_value var g2) <;> cases order <;> decide

theorem cmp_core_trans (var : String) (order : Bool) (g1 g2 g3 : Game)
    (h12 : cmp_core var order g1 g2 = -1) (h23 : cmp_core var order g2 g3 = -1) :
    cmp_core var order g1 g3 = -1 := by
  rw [cmp_core_eq_neg_one] at h12 h23 ⊢
  by_cases hname : var = "name"
  · simp only [hname, ne_eq, not_true_eq_false, false_and, if_false, strGt] at h12 h23 ⊢
    cases order
    · exact strLt_neg_trans _ _ _ h23 h12
    · exact strLt_trans _ _ _ h23 h12
  · by_cases h12eq : get_value var g1 = get_value var g2
    · rw [if_pos ⟨hname, h12eq⟩] at h12
      by_cases h23eq : get_value var g2 = get_value var g3
      · rw [if_pos ⟨hname, h23eq⟩] at h23
        rw [if_pos ⟨hname, h12eq.trans h23eq⟩]
        exact strLt_trans _ _ _ h23 h12
      · rw [if_neg (fun hc => h23eq hc.2)] at h23
        rw [if_neg (fun hc => h23eq (h12eq.symm.trans hc.2)), h12eq]
        exact h23
    · rw [if_neg (fun hc => h12eq hc.2)] at h12
      by_cases h23eq : get_value var g2 = get_value var g3
      · rw [if_neg (fun hc => h12eq (hc.2.trans h23eq.symm)), ← h23eq]
        exact h12
      · rw [if_neg (fun hc => h23eq hc.2)] at h23
        simp only [strGt] at h12 h23 ⊢
        cases order
        · have l31 : strLt (get_value var g3) (get_value var g1) = false :=
            strLt_neg_trans _ _ _ h23 h12
          rw [if_neg ?_]
          · exact l31
          · intro hc
            exact h12eq (strLt_conn _ _ h12 (hc.2 ▸ h23)).symm
        · have l31 : strLt (get_value var g3) (get_value var g1) = true :=
            strLt_trans _ _ _ h23 h12
          rw [if_neg ?_]
          · exact l31
          · intro hc
            rw [hc.2] at l31
            rw [strLt_irrefl] at l31
            exact Bool.noConfusion l31

theorem cmp_core_antisymm (var : String) (order : Bool) (g1 g2 : Game)
    (h : (get_value var g1, get_value "name" g1) ≠ (get_value var g2, get_value "name" g2)) :
    cmp_core var order g1 g2 = - cmp_core var order g2 g1 := by
  have hiff : (cmp_core var order g1 g2 = -1) ↔ ¬(cmp_core var order g2 g1 = -1) := by
    rw [cmp_core_eq_neg_one, cmp_core_eq_neg_one]
    by_cases hname : var = "name"
    · have hne : get_value "name" g1 ≠ get_value "name" g2 := by
        intro hn
        exact h (by rw [hname, hn])
      simp only [hname, ne_eq, not_true_eq_false, false_and, if_false, strGt]
      rw [strLt_flip (get_value "name" g1) (get_value "name" g2) hne]
      cases hx : strLt (get_value "name" g1) (get_value "name" g2) <;> cases order <;> decide
    · by_cases hveq : get_value var g1 = get_value var g2
      · have hne : get_value "name" g1 ≠ get_value "name" g2 := by
          intro hn
          exact h (by rw [hveq, hn])
        rw [if_pos ⟨hname, hveq⟩, if_pos ⟨hname, hveq.symm⟩]
        simp only [strGt]
        rw [strLt_flip (get_value "name" g2) (get_value "name" g1) (fun hc => hne hc.symm)]
        cases hx : strLt (get_value "name" g2) (get_value "name" g1) <;> decide
      · rw [if_neg (fun hc => hveq hc.2), if_neg (fun hc => hveq hc.2.symm)]
        simp only [strGt]
        rw [strLt_flip (get_value var g2) (get_value var g1) (fun hc => hveq hc.symm)]
        cases hx : strLt (get_value var g2) (get_value var g1) <;> cases order <;> decide
  rcases cmp_core_vals var order g1 g2 with h12 | h12 <;>
    rcases cmp_core_vals var order g2 g1 with h21 | h21
  · rw [h12, h21] at hiff
    exact absurd (hiff.mpr (by decide)) (by decide)
  · omega
  · omega
  · rw [h12, h21] at hiff
    exact absurd rfl (hiff.mp rfl)

/-! Placeholder selection. -/

theorem foldl_pair_split (l : List Game) : ∀ c h : LibChild,
    l.foldl set_library_child_step (c, h) =
      ((l.filter eligible_visible).foldl child_update c,
       (l.filter eligible_hidden).foldl child_update h) := by
  induction l with
  | nil => intro c h; rfl
  | cons g gs ih =>
    intro c h
    simp only [List.foldl_cons, List.filter_cons, set_library_child_step,
      eligible_visible, eligible_hidden]
    by_cases hr : g.removed
    · simp [hr, ih]
    · by_cases hb : g.blacklisted
      · simp [hr, hb, ih]
      · by_cases hh : g.hidden
        · simp [hr, hb, hh, ih]
        · simp [hr, hb, hh, ih]

theorem foldl_child_update (l : List Game) : ∀ c : LibChild,
    l.foldl child_update c =
      (if l.any (fun g => !g.filtered) then LibChild.scrolledwindow
       else if l.isEmpty then c
       else if c = LibChild.scrolledwindow then LibChild.scrolledwindow
       else LibChild.noticeNoResults) := by
  induction l with
  | nil => intro c; simp
  | cons g gs ih =>
    intro c
    simp only [List.foldl_cons, List.any_cons, List.isEmpty_cons, ih]
    by_cases hf : g.filtered
    · by_cases hc : c = LibChild.scrolledwindow
      · subst hc
        simp [child_update, hf]
      · cases c <;> simp_all [child_update]
    · simp [child_update, hf]

theorem any_filter_eq (p q : Game → Bool) (l : List Game) :
    (l.filter p).any q = l.any (fun g => p g && q g) := by
  induction l with
  | nil => rfl
  | cons g gs ih =>
    by_cases h : p g <;> simp [List.filter_cons, h, ih]

theorem filter_isEmpty_eq (p : Game → Bool) (l : List Game) :
    (l.filter p).isEmpty = !(l.any p) := by
  induction l with
  | nil => rfl
  | cons g gs ih =>
    by_cases h : p g <;> simp [List.filter_cons, h, ih]

theorem perm_any {α : Type} (p : α → Bool) {l₁ l₂ : List α} (h : List.Perm l₁ l₂) :
    l₁.any p = l₂.any p := by
  rw [Bool.eq_iff_iff, List.any_eq_true, List.any_eq_true]
  constructor
  · rintro ⟨x, hx, hp⟩
    exact ⟨x, h.mem_iff.mp hx, hp⟩
  · rintro ⟨x, hx, hp⟩
    exact ⟨x, h.mem_iff.mpr hx, hp⟩

theorem any_map_flags (p : Bool × Bool × Bool × Bool → Bool) (l : List Game) :
    (l.map game_flags).any p = l.any (fun g => p (game_flags g)) := by
  induction l with
  | nil => rfl
  | cons g gs ih => simp [ih]

theorem set_library_child_eq_select (games : List Game) :
    set_library_child games =
      (select_child eligible_visible games, select_child eligible_hidden games) := by
  unfold set_library_child select_child
  rw [foldl_pair_split, foldl_child_update, foldl_child_update,
    any_filter_eq, any_filter_eq, filter_isEmpty_eq, filter_isEmpty_eq, Prod.mk.injEq]
  constructor
  · cases hu : games.any (fun g => eligible_visible g && !g.filtered) <;>
      cases he : games.any eligible_visible <;> simp [hu, he]
  · cases hu : games.any (fun g => eligible_hidden g && !g.filtered) <;>
      cases he : games.any eligible_hidden <;> simp [hu, he]

/-! Navigation. -/

theorem navigate_visible (s : NavState) (next : Page) : (navigate s next).visible = next := by
  unfold navigate
  split <;> rfl

theorem navigate_previous_mem (s : NavState) (next : Page) (h : prev_is_library s) :
    prev_is_library (navigate s next) := by
  unfold navigate
  by_cases hn : next = Page.libraryView ∨ next = Page.hiddenLibraryView
  · rw [if_pos hn]
    exact hn
  · rw [if_neg hn]
    exact h

theorem on_go_to_parent_previous_mem (s : NavState) (h : prev_is_library s) :
    prev_is_library (on_go_to_parent_action s) := by
  unfold on_go_to_parent_action
  split
  · exact navigate_previous_mem _ _ h
  · exact h

theorem on_go_back_previous_mem (s : NavState) (h : prev_is_library s) :
    prev_is_library (on_go_back_action s) := by
  unfold on_go_back_action
  split
  · exact navigate_previous_mem _ _ h
  · split
    · exact on_go_to_parent_previous_mem _ h
    · exact h

theorem nav_apply_previous_mem (op : NavOp) (s : NavState) (h : prev_is_library s) :
    prev_is_library (nav_apply op s) := by
  cases op with
  | goBack => exact on_go_back_previous_mem s h
  | goToParent => exact on_go_to_parent_previous_mem s h
  | goHome => exact navigate_previous_mem _ _ h
  | showHidden => exact navigate_previous_mem _ _ h
  | showDetails =>
    show prev_is_library (show_details_view_nav s)
    unfold show_details_view_nav
    split
    · exact navigate_previous_mem _ _ h
    · exact h

theorem reachable_prev_is_library (s : NavState) (h : Reachable s) : prev_is_library s := by
  induction h with
  | base => exact Or.inl rfl
  | step s op hs ih => exact nav_apply_previous_mem op s ih

/-! The filter predicate. -/

theorem match_filtered_eq_false_iff (text : List Char) (g : Game) :
    match_filtered text g = false ↔
      (text = [] ∨ List.IsInfix text (lower g.name) ∨
       ∃ d, g.developer = some d ∧ List.IsInfix text (lower d)) := by
  unfold match_filtered
  by_cases ht : text = []
  · simp [ht]
  · cases hd : g.developer with
    | none => simp [ht, hd]
    | some d =>
      by_cases hde : d = []
      · subst hde
        simp [ht, hd, lower, List.infix_nil]
      · simp [ht, hd, hde]
        exact or_iff_not_imp_left.symm

/-- Claim C1: for every game and search query, the filter predicate keeps the
game visible iff the query is empty, or the lowercased query is a substring
of the lowercased name, or the game has a developer and the lowercased query
is a substring of the lowercased developer; the predicate also sets the
game's filtered flag to the negation of this result. -/
theorem C1_filter_predicate (s : SearchState) (g : Game) :
    ((filter_func s g).1 = true ↔
      (active_search_text s = [] ∨
       List.IsInfix (lower (active_search_text s)) (lower g.name) ∨
       ∃ d, g.developer = some d ∧
         List.IsInfix (lower (active_search_text s)) (lower d))) ∧
    (filter_func s g).2.filtered = !(filter_func s g).1 := by
  constructor
  · show (!(match_filtered (lower (active_search_text s)) g)) = true ↔ _
    have h := match_filtered_eq_false_iff (lower (active_search_text s)) g
    rw [show (lower (active_search_text s) = []) ↔ (active_search_text s = []) from
      by unfold lower; exact List.map_eq_nil_iff] at h
    rw [Bool.not_eq_true']
    exact h
  · simp [filter_func, filter_with_text]

/-- Claim C9 (implicit): the filter predicate chooses which search text to
apply by the currently visible page, not by which list the filtered item
belongs to: with the hidden library view visible every game is matched
against the hidden entry's text, otherwise against the library entry's. -/
theorem C9_filter_uses_page_text (s : SearchState) (g : Game) :
    (s.visiblePage = Page.hiddenLibraryView →
       filter_func s g = filter_with_text (lower s.hiddenSearchText) g) ∧
    (s.visiblePage ≠ Page.hiddenLibraryView →
       filter_func s g = filter_with_text (lower s.searchText) g) := by
  constructor <;> intro h <;> simp [filter_func, active_search_text, h]

/-- Witness for C9: on the hidden library page, a non-hidden game is matched
against the hidden entry's text. -/
theorem C9_filter_uses_page_text_witness :
    filter_func sHidden gW9 = filter_with_text (lower sHidden.hiddenSearchText) gW9 :=
  (C9_filter_uses_page_text sHidden gW9).1 rfl

/-! The sort comparator claims. -/

/-- Claim C2 (amended): under sort_state last_played the comparator sorts
descending by the lowercased textual form of last_played, and equal (or both
absent) values fall back to descending - not ascending - order by name; the
first game sorts before the second (value -1) iff its key is strictly
greater. -/
theorem C2_last_played_descending (g1 g2 : Game) :
    sort_func "last_played" g1 g2 = -1 ↔
      (strLt (get_value "last_played" g2) (get_value "last_played" g1) = true ∨
       (get_value "last_played" g1 = get_value "last_played" g2 ∧
        strLt (get_value "name" g2) (get_value "name" g1) = true)) := by
  have hvo : sort_var_order "last_played" = ("last_played", true) := by decide
  unfold sort_func
  rw [hvo, cmp_core_eq_neg_one]
  by_cases hv : get_value "last_played" g1 = get_value "last_played" g2
  · rw [if_pos ⟨by decide, hv⟩]
    simp only [strGt]
    rw [hv, strLt_irrefl]
    simp [hv]
  · rw [if_neg (fun hc => hv hc.2)]
    simp only [strGt]
    simp [hv]

/-- Counterexample to C2 as stated: with distinct last_played values 1 and 2
the comparator does not put the smaller first, and with equal values and
names a and b the fallback does not put the alphabetically smaller first. -/
theorem C2_last_played_counterexample :
    (¬ (strLt (get_value "last_played" gLp1) (get_value "last_played" gLp2) = true →
        sort_func "last_played" gLp1 gLp2 = -1)) ∧
    (¬ (get_value "last_played" gLp3 = get_value "last_played" gLp4 →
        strLt (get_value "name" gLp3) (get_value "name" gLp4) = true →
        sort_func "last_played" gLp3 gLp4 = -1)) := by decide

/-- Claim C3 (amended): for every sort mode the comparator only ever returns
1 or -1 (never 0), its sorts-before relation is transitive, and it is
antisymmetric for items whose effective keys (mode key plus fallback name
key) differ; on fully equal keys it returns a fixed nonzero value, so exact
antisymmetry fails there. -/
theorem C3_comparator_total_order (mode : String) (g1 g2 g3 : Game) :
    (sort_func mode g1 g2 = 1 ∨ sort_func mode g1 g2 = -1) ∧
    (sort_func mode g1 g2 = -1 → sort_func mode g2 g3 = -1 → sort_func mode g1 g3 = -1) ∧
    (sort_keys mode g1 ≠ sort_keys mode g2 →
      sort_func mode g1 g2 = - sort_func mode g2 g1) :=
  ⟨cmp_core_vals _ _ _ _,
   fun h12 h23 => cmp_core_trans _ _ _ _ _ h12 h23,
   fun hk => cmp_core_antisymm _ _ _ _ hk⟩

/-- Counterexample to C3 as stated: comparing a game with itself in a-z mode
returns -1, not 0, and violates compare(a,b) = -compare(b,a). -/
theorem C3_comparator_counterexample :
    sort_func "a-z" gNameA gNameA ≠ 0 ∧
    ¬ (sort_func "a-z" gNameA gNameA = - sort_func "a-z" gNameA gNameA) := by decide

/-- Witness for C3: antisymmetry applied to two games with distinct names. -/
theorem C3_comparator_total_order_witness :
    sort_func "a-z" gNameA gNameB = - sort_func "a-z" gNameB gNameA :=
  (C3_comparator_total_order "a-z" gNameA gNameB gNameA).2.2 (by decide)

/-! Placeholder selection, navigation, escape, undo and sort-action claims. -/

theorem perm_any_flags (p : Bool × Bool × Bool × Bool → Bool) {games games' : List Game}
    (hp : List.Perm (games.map game_flags) (games'.map game_flags)) :
    games.any (fun g => p (game_flags g)) = games'.any (fun g => p (game_flags g)) := by
  have h := perm_any p hp
  rw [any_map_flags, any_map_flags] at h
  exact h

/-- Claim C4: placeholder selection is a pure, iteration-order-independent
function of each game's (hidden, removed, blacklisted, filtered) tuple:
skipping removed and blacklisted games, each of the two views shows the
scroll container if some game of its group is unfiltered, else the
no-results notice if the group is non-empty, else the empty notice; two
stores with the same multiset of flag tuples yield the same choice, so
re-running on an unchanged game set yields the same choice. -/
theorem C4_placeholder_selection :
    (∀ games : List Game,
       set_library_child games =
         (select_child eligible_visible games, select_child eligible_hidden games)) ∧
    (∀ games games' : List Game,
       List.Perm (games.map game_flags) (games'.map game_flags) →
       set_library_child games = set_library_child games') := by
  constructor
  · exact set_library_child_eq_select
  · intro games games' hp
    rw [set_library_child_eq_select, set_library_child_eq_select]
    have h1 : games.any (fun g => eligible_visible g && !g.filtered)
        = games'.any (fun g => eligible_visible g && !g.filtered) :=
      perm_any_flags (fun t => (!t.2.1 && !t.2.2.1 && !t.1) && !t.2.2.2) hp
    have h2 : games.any eligible_visible = games'.any eligible_visible :=
      perm_any_flags (fun t => !t.2.1 && !t.2.2.1 && !t.1) hp
    have h3 : games.any (fun g => eligible_hidden g && !g.filtered)
        = games'.any (fun g => eligible_hidden g && !g.filtered) :=
      perm_any_flags (fun t => (!t.2.1 && !t.2.2.1 && t.1) && !t.2.2.2) hp
    have h4 : games.any eligible_hidden = games'.any eligible_hidden :=
      perm_any_flags (fun t => !t.2.1 && !t.2.2.1 && t.1) hp
    unfold select_child
    rw [h1, h2, h3, h4]

/-- Witness for C4: two singleton stores whose games carry the same flag
tuple but different names, timestamps and developers select the same
placeholders. -/
theorem C4_placeholder_selection_witness :
    set_library_child [gW4a] = set_library_child [gW4b] :=
  C4_placeholder_selection.2 [gW4a] [gW4b] (by decide)

/-- Claim C5: from every reachable navigation state showing the details
view, going to the parent (and going back, which defers to it) lands on
previous_page; in particular after reaching the details view from the
hidden library, back returns to the hidden library, not the library. -/
theorem C5_back_from_details :
    (∀ s, Reachable s → s.visible = Page.detailsView →
       (on_go_to_parent_action s).visible = s.previous ∧
       (on_go_back_action s).visible = s.previous) ∧
    (details_from_hidden.visible = Page.detailsView ∧
     details_from_hidden.previous = Page.hiddenLibraryView ∧
     (on_go_back_action details_from_hidden).visible = Page.hiddenLibraryView ∧
     (on_go_to_parent_action details_from_hidden).visible = Page.hiddenLibraryView) := by
  constructor
  · intro s hr hv
    have hp := reachable_prev_is_library s hr
    have hparent : (on_go_to_parent_action s).visible = s.previous := by
      unfold on_go_to_parent_action
      rw [if_pos hv, navigate_visible]
      rcases hp with h | h <;> simp [h]
    refine ⟨hparent, ?_⟩
    have hnh : ¬ s.visible = Page.hiddenLibraryView := by
      rw [hv]
      decide
    unfold on_go_back_action
    rw [if_neg hnh, if_pos hv]
    exact hparent
  · decide

/-- Witness for C5: the concrete state reached by showing the hidden library
and opening a game's details from it. -/
theorem C5_back_from_details_witness :
    (on_go_to_parent_action details_from_hidden).visible = details_from_hidden.previous ∧
    (on_go_back_action details_from_hidden).visible = details_from_hidden.previous :=
  C5_back_from_details.1 details_from_hidden
    (Reachable.step _ NavOp.showDetails (Reachable.step _ NavOp.showHidden Reachable.base))
    (by decide)

/-- Claim C6, code bug: Escape toggles search when one of the search entries
holds focus and back-navigates from any other widget, but when no widget
holds focus at all the Python condition degenerates to None == None and
wrongly takes the search-toggle branch instead of back-navigating. -/
theorem C6_escape_routing :
    on_escape_action none = EscapeRoute.toggleSearch ∧
    a_search_entry_holds_focus none = false ∧
    on_escape_action (some FocusW.searchText) = EscapeRoute.toggleSearch ∧
    on_escape_action (some FocusW.hiddenSearchText) = EscapeRoute.toggleSearch ∧
    on_escape_action (some FocusW.elsewhere) = EscapeRoute.goBackNav := by decide

/-- Claim C7 (amended): global undo with an empty registry and no pending
importer batch is a silent no-op leaving the whole state unchanged; but an
undo invocation for a (game, action) key no longer in the registry is not a
no-op: it re-applies the reversal to the game and then raises KeyError at
the toast-registry lookup, leaving the registry unchanged. -/
theorem C7_undo_no_entry :
    (∀ s : UndoState, s.importerPending = false → s.toasts = [] →
       on_undo_action s none none = UndoOutcome.ok s) ∧
    (∀ (s : UndoState) (gid : Nat) (u : String), (gid, u) ∉ s.toasts →
       ∃ s', on_undo_action s (some gid) (some u) = UndoOutcome.keyError s' ∧
             s'.toasts = s.toasts) := by
  constructor
  · intro s h1 h2
    simp [on_undo_action, h1, h2]
  · intro s gid u hmem
    refine ⟨{ s with games := undo_games_update s gid (some u) }, ?_, rfl⟩
    show undo_apply s gid (some u) = _
    simp [undo_apply, hmem]

/-- Counterexample to C7 as stated: invoking undo for the key (1, remove)
when the registry no longer holds it does not return silently - the lookup
raises KeyError (the state happens to be otherwise unchanged here because
the game's removed flag is already false). -/
theorem C7_undo_counterexample :
    on_undo_action undoNoEntryState (some 1) (some "remove") =
      UndoOutcome.keyError undoNoEntryState ∧
    on_undo_action undoNoEntryState (some 1) (some "remove") ≠
      UndoOutcome.ok undoNoEntryState := by decide

/-- Witness for C7: the silent no-op on an empty registry, and the KeyError
outcome for a key absent from a non-empty registry. -/
theorem C7_undo_no_entry_witness :
    on_undo_action undoNoEntryState none none = UndoOutcome.ok undoNoEntryState ∧
    ∃ s', on_undo_action undoWitnessState (some 7) (some "hide") = UndoOutcome.keyError s' ∧
          s'.toasts = undoWitnessState.toasts :=
  ⟨C7_undo_no_entry.1 undoNoEntryState rfl rfl,
   C7_undo_no_entry.2 undoWitnessState 7 "hide" (by decide)⟩

/-- Claim C8: previous_page is always one of the two library pages, never
the details view: it is initialized to the library view, and navigate - the
only place that assigns it - and every navigation operation preserve the
invariant. -/
theorem C8_previous_is_library_invariant :
    initialNavState.previous = Page.libraryView ∧
    (∀ s next, prev_is_library s → prev_is_library (navigate s next)) ∧
    (∀ op s, prev_is_library s → prev_is_library (nav_apply op s)) :=
  ⟨rfl, fun s next h => navigate_previous_mem s next h,
   fun op s h => nav_apply_previous_mem op s h⟩

/-- Witness for C8: navigating from the fresh window to the details view
keeps previous_page a library page. -/
theorem C8_previous_is_library_invariant_witness :
    prev_is_library (navigate initialNavState Page.detailsView) :=
  C8_previous_is_library_invariant.2.1 initialNavState Page.detailsView (Or.inl rfl)

/-- Claim C10 (implicit): selecting a sort mode stores it on the action, in
the shared sort_state read by both flow boxes' comparators and in the
settings schema, and re-sorts only the visible library flow box; the hidden
flow box's displayed order is left unchanged. -/
theorem C10_sort_action_frame (s : SortWindowState) (m : String) :
    (on_sort_action s m).hiddenChildren = s.hiddenChildren ∧
    (on_sort_action s m).sort_state = m ∧
    (on_sort_action s m).actionState = m ∧
    (on_sort_action s m).schemaSortMode = m ∧
    (on_sort_action s m).libraryChildren = invalidate_sort m s.libraryChildren :=
  ⟨rfl, rfl, rfl, rfl, rfl⟩

end Cartridges
